import Mathlib

/-!
Verification of the conversational backend in `image_chat_firebase.py`.

Python strings are modelled as `List Char`; Python/JSON values as the
inductive `PyValue`; external collaborators (the language model, the web
search and geolocation endpoints, the document store, `json.loads`/`dumps`
and the JWT signer) as oracle fields of an `Env` record.  Each handler is
translated from the source as a pure function of the environment returning
its value together with the list of external calls it makes (`Event`s);
a Python exception that the source does not catch is an `Except.error`.
-/

/-- Python strings, modelled as lists of characters. -/
abbrev Str := List Char

/-- Whitespace for Python `str.strip`/`lstrip`/`rstrip` (ASCII): space and
the characters 9..13 (tab, newline, vertical tab, form feed, carriage return). -/
def pyIsSpace (c : Char) : Bool := c.toNat = 32 || (9 ≤ c.toNat && c.toNat ≤ 13)

/-- Python `str.lstrip()`. -/
def pyLStrip (s : Str) : Str := s.dropWhile pyIsSpace

/-- Python `str.rstrip()`. -/
def pyRStrip (s : Str) : Str := (s.reverse.dropWhile pyIsSpace).reverse

/-- Python `str.strip()`. -/
def pyStrip (s : Str) : Str := pyRStrip (pyLStrip s)

/-- The backquote character, U+0060. -/
def bq : Char := Char.ofNat 96

/-- The characters of the bare markdown fence marker (three backquotes). -/
def fenceBare : Str := [bq, bq, bq]

/-- The characters of the JSON-tagged markdown fence marker (three backquotes
followed by the letters j, s, o, n); its length is 7. -/
def fenceJson : Str := [bq, bq, bq, 'j', 's', 'o', 'n']

/-- Translation of `ImageChatService._clean_llm_json_response` (lines 86-95):
strip whitespace, drop a leading JSON-tagged fence (checked first) or a
leading bare fence, then drop a trailing bare fence. -/
def clean_llm_json_response (llm_response_text : Str) : Str :=
  let text := pyStrip llm_response_text
  let text2 :=
    if fenceJson.isPrefixOf text then pyLStrip (text.drop 7)
    else if fenceBare.isPrefixOf text then pyLStrip (text.drop 3)
    else text
  if fenceBare.isSuffixOf text2 then pyRStrip (text2.take (text2.length - 3)) else text2

/-- Python/JSON values as the handlers manipulate them. -/
inductive PyValue where
  | null : PyValue
  | bool : Bool → PyValue
  | int : Int → PyValue
  | str : Str → PyValue
  | list : List PyValue → PyValue
  | dict : List (Str × PyValue) → PyValue

/-- A Python dictionary: an association list whose later entries never repeat
an earlier key once built through `pyDictSet`. -/
abbrev PyDict := List (Str × PyValue)

/-- Lookup of a key in a dictionary (Python `d[k]` / `k in d`). -/
def pyDictGet : PyDict → Str → Option PyValue
  | [], _ => none
  | (k, v) :: rest, key => if k = key then some v else pyDictGet rest key

/-- Lookup with a default (Python `d.get(k, default)`). -/
def pyDictGetD (d : PyDict) (key : Str) (dflt : PyValue) : PyValue :=
  (pyDictGet d key).getD dflt

/-- Assignment `d[k] = v`: replace the value of an existing key in place,
otherwise append the new entry. -/
def pyDictSet : PyDict → Str → PyValue → PyDict
  | [], key, v => [(key, v)]
  | (k, w) :: rest, key, v =>
      if k = key then (key, v) :: rest else (k, w) :: pyDictSet rest key v

/-- Python truthiness: `None`, `False`, `0`, empty string, empty list and
empty dictionary are falsy. -/
def pyTruthy : PyValue → Bool
  | .null => false
  | .bool b => b
  | .int n => n ≠ 0
  | .str s => !s.isEmpty
  | .list xs => !xs.isEmpty
  | .dict d => !d.isEmpty

mutual
/-- Python structural equality `==` as the membership operator uses it here. -/
def pyEq : PyValue → PyValue → Bool
  | .null, .null => true
  | .bool a, .bool b => a = b
  | .int a, .int b => a = b
  | .str a, .str b => a = b
  | .list xs, .list ys => pyEqList xs ys
  | .dict a, .dict b => pyEqFields a b
  | _, _ => false

/-- Elementwise equality of Python lists. -/
def pyEqList : List PyValue → List PyValue → Bool
  | [], [] => true
  | x :: xs, y :: ys => pyEq x y && pyEqList xs ys
  | _, _ => false

/-- Entrywise equality of dictionary fields. -/
def pyEqFields : List (Str × PyValue) → List (Str × PyValue) → Bool
  | [], [] => true
  | (k, v) :: xs, (k', v') :: ys => k = k' && pyEq v v' && pyEqFields xs ys
  | _, _ => false
end

/-- Python substring membership `needle in hay` for strings. -/
def pySubstr (needle : Str) : Str → Bool
  | [] => needle.isEmpty
  | c :: rest => needle.isPrefixOf (c :: rest) || pySubstr needle rest

/-- An uncaught Python exception. -/
inductive Fault where
  | typeError : Fault
  | attributeError : Fault
deriving DecidableEq

/-- Python `needle in container`: key lookup for dictionaries, membership for
lists, substring test for strings; a `TypeError` for non-iterable values. -/
def pyContains (container needle : PyValue) : Except Fault Bool :=
  match container, needle with
  | .dict d, .str k => .ok (pyDictGet d k).isSome
  | .dict _, .list _ => .error .typeError
  | .dict _, .dict _ => .error .typeError
  | .dict _, _ => .ok false
  | .list xs, v => .ok (xs.any (pyEq v))
  | .str s, .str k => .ok (pySubstr k s)
  | .str _, _ => .error .typeError
  | _, _ => .error .typeError

/-- The apostrophe character, U+0027, with which Python `repr` quotes strings. -/
def quoteChar : Char := Char.ofNat 39

/-- The left brace character, U+007B. -/
def lbrace : Char := Char.ofNat 123

/-- The right brace character, U+007D. -/
def rbrace : Char := Char.ofNat 125

mutual
/-- Python `repr`, as `str()` of a container renders its elements. -/
def pyRepr : PyValue → Str
  | .null => "None".toList
  | .bool true => "True".toList
  | .bool false => "False".toList
  | .int n => (toString n).toList
  | .str s => quoteChar :: s ++ [quoteChar]
  | .list xs => '[' :: pyReprElems xs ++ [']']
  | .dict fs => lbrace :: pyReprFields fs ++ [rbrace]

/-- Comma-separated `repr`s of list elements. -/
def pyReprElems : List PyValue → Str
  | [] => []
  | [x] => pyRepr x
  | x :: y :: xs => pyRepr x ++ ", ".toList ++ pyReprElems (y :: xs)

/-- Comma-separated `key: value` renderings of dictionary fields. -/
def pyReprFields : List (Str × PyValue) → Str
  | [] => []
  | [(k, v)] => pyRepr (.str k) ++ ": ".toList ++ pyRepr v
  | (k, v) :: f :: fs =>
      pyRepr (.str k) ++ ": ".toList ++ pyRepr v ++ ", ".toList ++ pyReprFields (f :: fs)
end

/-- Python `str()`, as an f-string renders an interpolated value. -/
def pyToStr : PyValue → Str
  | .str s => s
  | v => pyRepr v

/-- Shorthand turning a Lean string literal into the `List Char` model. -/
def S (s : String) : Str := s.toList

/-- Decimal rendering of a natural number, as Python `str()`/f-strings do. -/
def natToStr (n : Nat) : Str := (toString n).toList

/-- Range of HTTP status codes for which `requests.Response.raise_for_status`
raises (4xx and 5xx). -/
def raisesForStatus (status : Nat) : Bool := 400 ≤ status && status < 600

/-- Outcome of one HTTP request: a response with its status code and its body
(`Except.error m` when the body text is not JSON, so `response.json()` raises
with message `m`), or a network-level failure (`requests.RequestException`). -/
inductive HttpResp where
  | resp (status : Nat) (body : Except Str PyValue)
  | netFail (msg : Str)

/-- One stored document of the `chat_history` collection, with the fields the
code writes and queries on. -/
structure ChatDoc where
  user_id : Str
  question : Str
  answer : Str
  timestamp : Nat
  session_id : Option Str

/-- Rendering of a chat document as `doc.to_dict()` returns it. -/
def ChatDoc.toDict (c : ChatDoc) : PyValue :=
  .dict [(S "user_id", .str c.user_id), (S "question", .str c.question),
         (S "answer", .str c.answer), (S "timestamp", .int c.timestamp),
         (S "session_id", match c.session_id with | some s => .str s | none => .null)]

/-- One external call the service makes, in order of occurrence. -/
inductive Event where
  | llm (prompt : Str)
  | httpGet (url : Str)
  | httpPost (url : Str)
  | dbStream (collection : Str)
  | dbQuery (collection : Str)
  | dbAdd (collection : Str)
  | sign

/-- The service's environment: configuration plus oracles for every external
collaborator (model endpoint, geolocation and search endpoints, JSON codec,
document store contents, wallet class endpoints, JWT signer, clock). -/
structure Env where
  llm : Str → Str
  api_key : Option Str
  search_engine_id : Option Str
  locationHttp : HttpResp
  searchHttp : Str → HttpResp
  jsonLoads : Str → Option PyValue
  jsonDumpsIndent : PyValue → Str
  jsonDumpsStr : PyValue → Str
  receipts : List PyValue
  chat_history : List ChatDoc
  issuer_id : Str
  service_account_email : Str
  now : Nat
  classGet : HttpResp
  classPost : HttpResp
  jwtSign : PyValue → Str

/-- Truthiness of the result of `os.getenv` (`None` when unset, falsy also
when set to the empty string). -/
def optFalsy : Option Str → Bool
  | none => true
  | some s => s.isEmpty

/-- A `{"type": "text", "content": c}` response dictionary. -/
def textResp (c : Str) : PyValue :=
  .dict [(S "type", .str (S "text")), (S "content", .str c)]

/-- A `{"type": "error", "content": c}` response dictionary. -/
def errorResp (c : Str) : PyValue :=
  .dict [(S "type", .str (S "error")), (S "content", .str c)]

/-- The intent-classification prompt of `_detect_intent` (lines 217-224). -/
def detectIntentPrompt (user_input : Str) : Str :=
  S "\n        Analyze the user\x27s request and classify its intent. The possible intents are:\n        - \x27PRICE_COMPARISON\x27: For any question about the price of an item, cost, or comparing prices.\n        - \x27CREATE_PASS\x27: For any request to generate a grocery list or pass.\n        - \x27GENERAL_QUESTION\x27: For any other question, especially about their past receipts.\n\n        User Request: \"" ++ user_input ++ S "\"\n        Intent:"

/-- The classifier reply stripped and uppercased, line 226
(`response.content.strip().upper()`). -/
def detectedIntentOf (env : Env) (user_input : Str) : Str :=
  (pyStrip (env.llm (detectIntentPrompt user_input))).map Char.toUpper

/-- Translation of `ImageChatService._detect_intent` (lines 215-232): one
model call, then the reply is stripped, uppercased, and matched for the
substring `PRICE_COMPARISON` first, `CREATE_PASS` second, with
`GENERAL_QUESTION` as the default. -/
def detect_intent (env : Env) (user_input : Str) : Str × List Event :=
  let prompt := detectIntentPrompt user_input
  let detected_intent := detectedIntentOf env user_input
  (if pySubstr (S "PRICE_COMPARISON") detected_intent then S "PRICE_COMPARISON"
   else if pySubstr (S "CREATE_PASS") detected_intent then S "CREATE_PASS"
   else S "GENERAL_QUESTION",
   [Event.llm prompt])

/-- Default location returned when detection fails (line 189). -/
def locationDefault : PyDict :=
  [(S "city", .str (S "Unknown")), (S "region", .str (S "Unknown")),
   (S "country", .str (S "United States"))]

/-- Translation of `_get_user_location` (lines 176-189): on any HTTP failure,
non-JSON body or non-dictionary JSON the `except Exception` branch yields the
default; otherwise the three fields are read with `Unknown` defaults. -/
def get_user_location (env : Env) : PyDict × List Event :=
  (match env.locationHttp with
   | .netFail _ => locationDefault
   | .resp status body =>
     if raisesForStatus status then locationDefault
     else match body with
       | .error _ => locationDefault
       | .ok (.dict d) =>
           [(S "city", pyDictGetD d (S "city") (.str (S "Unknown"))),
            (S "region", pyDictGetD d (S "region") (.str (S "Unknown"))),
            (S "country", pyDictGetD d (S "country_name") (.str (S "Unknown")))]
       | .ok _ => locationDefault,
   [Event.httpGet (S "https://ipapi.co/json/")])

/-- The localized search query built on line 200. -/
def searchQueryOf (query : Str) (location : PyDict) : Str :=
  query ++ S " best prices in " ++ pyToStr (pyDictGetD location (S "city") .null) ++ S " "
    ++ pyToStr (pyDictGetD location (S "country") .null)
    ++ S ", more emphasis on online availability and country"

/-- Translation of `_search_prices_tool` (lines 191-211): missing credentials,
an HTTP status in 400..599, a network failure and an unparseable body each
yield an `{error, available: False}` dictionary; success yields
`{results, available: True}`. -/
def search_prices_tool (env : Env) (query : Str) : PyDict × List Event :=
  if optFalsy env.api_key || optFalsy env.search_engine_id then
    ([(S "error", .str (S "Price search unavailable - missing API credentials")),
      (S "available", .bool false)], [])
  else
    let location := (get_user_location env).1
    let search_query := searchQueryOf query location
    let ev := (get_user_location env).2 ++ [Event.httpGet (S "https://www.googleapis.com/customsearch/v1")]
    (match env.searchHttp search_query with
     | .netFail msg =>
         [(S "error", .str (S "Network or request error: " ++ msg)), (S "available", .bool false)]
     | .resp status body =>
       if raisesForStatus status then
         [(S "error", .str (S "API returned status " ++ natToStr status)), (S "available", .bool false)]
       else match body with
         | .error msg =>
             [(S "error", .str (S "Network or request error: " ++ msg)), (S "available", .bool false)]
         | .ok j => [(S "results", j), (S "available", .bool true)], ev)

/-- The product-extraction prompt of `_handle_price_comparison` (line 236). -/
def extractionPromptOf (question : Str) : Str :=
  S "From the following user question, extract just the name of the product or item they are asking about. For example, from \x27how much is an iphone 15 pro max 256gb these days?\x27, extract \x27iphone 15 pro max 256gb\x27.\n\nQuestion: \x27" ++ question ++ S "\x27"

/-- The price-synthesis prompt of `_handle_price_comparison` (lines 252-257),
taking the already-serialized search results. -/
def synthesisPromptOf (question resultsDump : Str) : Str :=
  S "\n        You are a helpful price comparison assistant. A user asked: \"" ++ question
    ++ S "\"\n        I performed a web search and found these results: " ++ resultsDump
    ++ S "\n        Based *only* on these search results, provide a concise answer. Summarize the prices found, mentioning the source website (from the \x27title\x27 or \x27displayLink\x27).\n        If the results do not contain specific prices, state that you couldn\x27t find exact pricing information but can provide the links. Do not make up information.\n        "

/-- The product query extracted on line 237: the model reply stripped with all
double quotes removed. -/
def productQueryOf (env : Env) (question : Str) : Str :=
  (pyStrip (env.llm (extractionPromptOf question))).filter (fun c => !(c = '"'))

/-- Translation of `_handle_price_comparison` (lines 234-259). -/
def handle_price_comparison (env : Env) (question : Str) : Except Fault PyValue × List Event :=
  let extraction_prompt := extractionPromptOf question
  let product_query := productQueryOf env question
  if product_query.isEmpty then
    (.ok (textResp (S "I\x27m sorry, I couldn\x27t understand which product you\x27re asking about. Please be more specific.")),
     [Event.llm extraction_prompt])
  else
    let search_results := (search_prices_tool env product_query).1
    let evs := Event.llm extraction_prompt :: (search_prices_tool env product_query).2
    if !(pyTruthy (pyDictGetD search_results (S "available") .null)) then
      (.ok (textResp (S "I couldn\x27t search for prices right now. Reason: "
        ++ pyToStr (pyDictGetD search_results (S "error") (.str (S "An unknown error occurred."))))), evs)
    else
      let results := pyDictGetD search_results (S "results") (.dict [])
      match pyContains results (.str (S "items")) with
      | .error f => (.error f, evs)
      | .ok has_items =>
        if !has_items then
          (.ok (textResp (S "I couldn\x27t find any specific online listings for \x27" ++ product_query
            ++ S "\x27. You could try a broader search term.")), evs)
        else
          let synthesis_prompt := synthesisPromptOf question (env.jsonDumpsIndent results)
          (.ok (textResp (env.llm synthesis_prompt)), evs ++ [Event.llm synthesis_prompt])

/-- Insert a chat document into a list already ordered by descending
timestamp, after every document with a timestamp at least as large. -/
def insertChatDesc (c : ChatDoc) : List ChatDoc → List ChatDoc
  | [] => [c]
  | d :: ds => if c.timestamp ≤ d.timestamp then d :: insertChatDesc c ds else c :: d :: ds

/-- Sort chat documents by descending timestamp (the document store's
`order_by("timestamp", DESCENDING)`). -/
def sortChatsDesc : List ChatDoc → List ChatDoc
  | [] => []
  | c :: cs => insertChatDesc c (sortChatsDesc cs)

/-- The chat-history query of lines 268-270: documents whose `user_id` equals
the requesting user, ordered by timestamp descending, limited to 10. -/
def recentChats (docs : List ChatDoc) (user_id : Str) : List ChatDoc :=
  (sortChatsDesc (docs.filter (fun d => d.user_id = user_id))).take 10

/-- The grounding prompt of `_handle_receipt_question` (lines 273-276),
taking the already-serialized context. -/
def receiptPromptOf (contextDump question : Str) : Str :=
  S "You are a helpful assistant answering questions about receipts.\n        Context: " ++ contextDump
    ++ S "\n        User question: " ++ question
    ++ S "\n        Answer based ONLY on the above data."

/-- The grounding context of line 272: every stored receipt (unfiltered) and
the requesting user's recent chat history. -/
def receiptContextOf (receipts : List PyValue) (chats : List ChatDoc) : PyValue :=
  .dict [(S "receipts", .list receipts), (S "chat_history", .list (chats.map ChatDoc.toDict))]

/-- Translation of `_handle_receipt_question` (lines 261-286): stream all
receipts; if none, apologize; otherwise query the user's ten most recent chat
entries, ask the model over the serialized context, persist the new chat
entry and return the answer as a `text` response. -/
def handle_receipt_question (env : Env) (question user_id : Str) (_session_id : Option Str) :
    PyValue × List Event :=
  let user_receipts := env.receipts
  if user_receipts.isEmpty then
    (textResp (S "No receipt data found. Please upload a receipt image first."),
     [Event.dbStream (S "receipts")])
  else
    let recent_chats := recentChats env.chat_history user_id
    let context := receiptContextOf user_receipts recent_chats
    let prompt := receiptPromptOf (env.jsonDumpsStr context) question
    let answer := env.llm prompt
    (textResp answer,
     [Event.dbStream (S "receipts"), Event.dbQuery (S "chat_history"),
      Event.llm prompt, Event.dbAdd (S "chat_history")])

/-- The grocery-list prompt of the first `create_grocery_pass` definition
(lines 316-321). -/
def groceryPromptV1 (grocery_list : Str) : Str :=
  S "\n            Format the user\x27s grocery list into a JSON object with a \x27user_id\x27 and a list of \x27items\x27,\n            each with \x27name\x27 and optional \x27quantity\x27.\n            User request: \"\"\"" ++ grocery_list ++ S "\"\"\"\n            Return ONLY the JSON object.\n            "

/-- The grocery-list prompt of the second `create_grocery_pass` definition
(line 396). -/
def groceryPromptV2 (grocery_list : Str) : Str :=
  S "Format the user\x27s grocery list into a JSON object with a \x27user_id\x27 and a list of \x27items\x27, each with \x27name\x27 and optional \x27quantity\x27. User request: \"\"\"" ++ grocery_list ++ S "\"\"\" Return ONLY the JSON object."

/-- What the first textual definition of `create_grocery_pass` (lines 314-330)
does with the model's reply: clean it, parse it as JSON (`none` models a
`json.JSONDecodeError`, answered by the error dictionary with the unmodified
reply), set `user_id` on the parsed dictionary and return it; assigning into
a parsed non-dictionary raises an uncaught `TypeError`. -/
def create_grocery_pass_reply_v1 (jsonLoads : Str → Option PyValue) (reply user_id : Str) :
    Except Fault PyDict :=
  let raw_json_str := clean_llm_json_response reply
  match jsonLoads raw_json_str with
  | some (.dict fields) => .ok (pyDictSet fields (S "user_id") (.str user_id))
  | some _ => .error .typeError
  | none => .ok [(S "error", .str (S "Failed to parse grocery pass from LLM response.")),
                 (S "raw_response", .str reply)]

/-- What the second textual definition of `create_grocery_pass` (lines
395-404), the one in effect on the class, does with the model's reply. -/
def create_grocery_pass_reply_v2 (jsonLoads : Str → Option PyValue) (reply user_id : Str) :
    Except Fault PyDict :=
  let raw_json_str := clean_llm_json_response reply
  match jsonLoads raw_json_str with
  | some (.dict fields) => .ok (pyDictSet fields (S "user_id") (.str user_id))
  | some _ => .error .typeError
  | none => .ok [(S "error", .str (S "Failed to parse grocery pass from LLM response.")),
                 (S "raw_response", .str reply)]

/-- Translation of the effective `create_grocery_pass` (lines 395-404): one
model call on the v2 prompt, then the reply processing above. -/
def create_grocery_pass (env : Env) (grocery_list user_id : Str) :
    Except Fault PyDict × List Event :=
  let prompt := groceryPromptV2 grocery_list
  (create_grocery_pass_reply_v2 env.jsonLoads (env.llm prompt) user_id, [Event.llm prompt])

/-- Translation of the router `answer_question` (lines 290-310): reject an
empty owner id before any call, classify the intent with one model call, then
dispatch to exactly one handler, wrapping the pass builder's output. -/
def answer_question (env : Env) (question user_id : Str) (session_id : Option Str) :
    Except Fault PyValue × List Event :=
  if user_id.isEmpty then (.ok (errorResp (S "User ID is required.")), [])
  else
    let intent := (detect_intent env question).1
    let ev1 := (detect_intent env question).2
    if intent = S "PRICE_COMPARISON" then
      ((handle_price_comparison env question).1, ev1 ++ (handle_price_comparison env question).2)
    else if intent = S "CREATE_PASS" then
      let ev2 := (create_grocery_pass env question user_id).2
      match (create_grocery_pass env question user_id).1 with
      | .error f => (.error f, ev1 ++ ev2)
      | .ok pass_data =>
        match pyDictGet pass_data (S "error") with
        | some e =>
            (.ok (errorResp (S "Sorry, failed to create grocery pass: " ++ pyToStr e)), ev1 ++ ev2)
        | none =>
            (.ok (.dict [(S "type", .str (S "PASS_BUILDER")), (S "content", .dict pass_data)]),
             ev1 ++ ev2)
    else
      (.ok (handle_receipt_question env question user_id session_id).1,
       ev1 ++ (handle_receipt_question env question user_id session_id).2)

/-- URL of the wallet class lookup for the service's class id (lines 100-101). -/
def passClassUrl (issuer_id : Str) : Str :=
  S "https://walletobjects.googleapis.com/walletobjects/v1/genericClass/" ++ issuer_id
    ++ S ".project_grocery_list"

/-- Translation of `_create_pass_class` (lines 98-127): status 200 on lookup
means the class exists; any status other than 404 is an unexpected error
(`False`); on 404 the class is created, `raise_for_status` deciding success;
any raised exception is caught and yields `False`. -/
def create_pass_class (env : Env) : Bool × List Event :=
  let getEv := Event.httpGet (passClassUrl env.issuer_id)
  match env.classGet with
  | .netFail _ => (false, [getEv])
  | .resp status _ =>
    if status = 200 then (true, [getEv])
    else if status ≠ 404 then (false, [getEv])
    else
      let postEv := Event.httpPost (S "https://walletobjects.googleapis.com/walletobjects/v1/genericClass")
      match env.classPost with
      | .netFail _ => (false, [getEv, postEv])
      | .resp st _ => (!(raisesForStatus st), [getEv, postEv])

/-- Python `user_email.replace("@", "_at_")` on line 135. -/
def replaceAtSign (s : Str) : Str :=
  s.flatMap (fun c => if c = '@' then S "_at_" else [c])

/-- One display module per grocery item (lines 140-148): id `item_<i>`, the
item's name as header (`Unknown Item` default) and its quantity (default 1)
rendered into the body. -/
def textModulesGo (i : Nat) : List PyValue → Except Fault (List PyValue)
  | [] => .ok []
  | x :: rest =>
    match x with
    | .dict d =>
        (textModulesGo (i + 1) rest).map
          (.dict [(S "id", .str (S "item_" ++ natToStr i)),
                  (S "header", pyDictGetD d (S "name") (.str (S "Unknown Item"))),
                  (S "body", .str (S "Quantity: " ++ pyToStr (pyDictGetD d (S "quantity") (.int 1))))] :: ·)
    | _ => .error .attributeError

/-- Iterating `pass_data.get("items", [])`: a list of dictionaries builds the
modules; iterating a non-empty string or dictionary reaches `.get` on a
non-dictionary element (`AttributeError`); non-iterables raise `TypeError`. -/
def buildTextModules : PyValue → Except Fault (List PyValue)
  | .list xs => textModulesGo 0 xs
  | .str s => if s.isEmpty then .ok [] else .error .attributeError
  | .dict d => if d.isEmpty then .ok [] else .error .attributeError
  | _ => .error .typeError

/-- Translation of `create_wallet_pass_jwt` (lines 130-172): the class-ensure
step runs first but its boolean result is discarded (line 132); the pass
object is then built, the claims payload signed, and the save URL returned. -/
def create_wallet_pass_jwt (env : Env) (user_email : Str) (pass_data : PyValue) :
    Except Fault PyValue × List Event :=
  let ev1 := (create_pass_class env).2
  let class_id := env.issuer_id ++ S ".project_grocery_list"
  let object_id_suffix := replaceAtSign user_email ++ S "-" ++ natToStr env.now
  let object_id := env.issuer_id ++ S "." ++ object_id_suffix
  let items : Except Fault PyValue :=
    match pass_data with
    | .dict d => .ok (pyDictGetD d (S "items") (.list []))
    | _ => .error .attributeError
  match items with
  | .error f => (.error f, ev1)
  | .ok itemsv =>
    match buildTextModules itemsv with
    | .error f => (.error f, ev1)
    | .ok text_modules =>
      let pass_object : PyValue :=
        .dict [(S "id", .str object_id), (S "classId", .str class_id),
               (S "genericType", .str (S "GENERIC_TYPE_UNSPECIFIED")),
               (S "hexBackgroundColor", .str (S "#fbbc04")),
               (S "cardTitle", .dict [(S "defaultValue",
                 .dict [(S "language", .str (S "en")), (S "value", .str (S "Your Grocery List"))])]),
               (S "header", .dict [(S "defaultValue",
                 .dict [(S "language", .str (S "en")), (S "value", .str user_email)])]),
               (S "barcode", .dict [(S "type", .str (S "QR_CODE")), (S "value", .str object_id)]),
               (S "textModulesData", .list text_modules)]
      let claims : PyValue :=
        .dict [(S "iss", .str env.service_account_email), (S "aud", .str (S "google")),
               (S "typ", .str (S "savetowallet")),
               (S "origins", .list [.str (S "http://localhost:3000"), .str (S "http://localhost:3001")]),
               (S "payload", .dict [(S "genericObjects", .list [pass_object])])]
      let token := env.jwtSign claims
      (.ok (.dict [(S "saveUrl", .str (S "https://pay.google.com/gp/v/save/" ++ token))]),
       ev1 ++ [Event.sign])

/-- Setting a key makes it readable back with the assigned value. -/
theorem pyDictGet_pyDictSet_same (d : PyDict) (k : Str) (v : PyValue) :
    pyDictGet (pyDictSet d k v) k = some v := by
  induction d with
  | nil => simp [pyDictSet, pyDictGet]
  | cons entry rest ih =>
    obtain ⟨k', w⟩ := entry
    by_cases h : k' = k
    · simp [pyDictSet, pyDictGet, h]
    · simp [pyDictSet, pyDictGet, h, ih]

/-- A reference environment whose oracles all return trivial values. -/
def envBase : Env :=
  ⟨fun _ => [], none, none, .netFail [], fun _ => .netFail [], fun _ => none,
   fun _ => [], fun _ => [], [], [], [], [], 0, .netFail [], .netFail [], fun _ => []⟩

/-- C2: with an empty owner identifier, `answer_question` returns the
`{"type": "error", "content": "User ID is required."}` response at once, with
an empty trace of external calls: no handler runs and no model, search or
database call is made, for every environment, question and session. -/
theorem c2_empty_user_id_rejected (env : Env) (question : Str) (session_id : Option Str) :
    answer_question env question [] session_id =
      (.ok (errorResp (S "User ID is required.")), []) := rfl

/-- C9: the two textual definitions of `create_grocery_pass` are extensionally
equal over the model reply: for every JSON parser outcome, reply and user id
they clean, parse, stamp `user_id` and fall back to the same
`{error, raw_response}` dictionary identically. -/
theorem c9_grocery_pass_definitions_agree (jsonLoads : Str → Option PyValue)
    (reply user_id : Str) :
    create_grocery_pass_reply_v1 jsonLoads reply user_id =
      create_grocery_pass_reply_v2 jsonLoads reply user_id := rfl

/-- C1: the intent classifier uppercases and trims the model reply and then
tests for the substring `PRICE_COMPARISON` first, `CREATE_PASS` second,
defaulting to `GENERAL_QUESTION`; in particular a reply containing both
tokens classifies as `PRICE_COMPARISON`. -/
theorem c1_intent_substring_order (env : Env) (q : Str) :
    (pySubstr (S "PRICE_COMPARISON") (detectedIntentOf env q) = true →
      (detect_intent env q).1 = S "PRICE_COMPARISON")
  ∧ (pySubstr (S "PRICE_COMPARISON") (detectedIntentOf env q) = false →
     pySubstr (S "CREATE_PASS") (detectedIntentOf env q) = true →
      (detect_intent env q).1 = S "CREATE_PASS")
  ∧ (pySubstr (S "PRICE_COMPARISON") (detectedIntentOf env q) = false →
     pySubstr (S "CREATE_PASS") (detectedIntentOf env q) = false →
      (detect_intent env q).1 = S "GENERAL_QUESTION")
  ∧ (pySubstr (S "PRICE_COMPARISON") (detectedIntentOf env q) = true →
     pySubstr (S "CREATE_PASS") (detectedIntentOf env q) = true →
      (detect_intent env q).1 = S "PRICE_COMPARISON") := by
  refine ⟨fun h => ?_, fun h h' => ?_, fun h h' => ?_, fun h _ => ?_⟩ <;>
    simp [detect_intent, h]
  · simp [h']
  · simp [h']

/-- C4: whenever the cleaned model reply fails to parse as JSON, the effective
`create_grocery_pass` returns the fixed error message together with the
original, unmodified model output (not the cleaned text) as `raw_response`. -/
theorem c4_parse_failure_returns_raw (env : Env) (grocery_list user_id : Str)
    (h : env.jsonLoads (clean_llm_json_response (env.llm (groceryPromptV2 grocery_list))) = none) :
    (create_grocery_pass env grocery_list user_id).1 =
      .ok [(S "error", .str (S "Failed to parse grocery pass from LLM response.")),
           (S "raw_response", .str (env.llm (groceryPromptV2 grocery_list)))] := by
  simp [create_grocery_pass, create_grocery_pass_reply_v2, h]

/-- Witness for C4 at a concrete environment whose model reply is empty and
whose parser rejects it. -/
theorem c4_parse_failure_returns_raw_witness :
    (create_grocery_pass envBase [] []).1 =
      .ok [(S "error", .str (S "Failed to parse grocery pass from LLM response.")),
           (S "raw_response", .str [])] :=
  c4_parse_failure_returns_raw envBase [] [] rfl

/-- C10: a model reply whose cleaned text parses as JSON but not as a JSON
object (here: a JSON array) makes `create_grocery_pass` raise an uncaught
`TypeError` at the `user_id` assignment instead of returning the structured
`{error, raw_response}` dictionary. -/
theorem c10_non_object_json_raises (env : Env) (grocery_list user_id : Str) (xs : List PyValue)
    (h : env.jsonLoads (clean_llm_json_response (env.llm (groceryPromptV2 grocery_list))) =
      some (.list xs)) :
    (create_grocery_pass env grocery_list user_id).1 = .error .typeError := by
  simp [create_grocery_pass, create_grocery_pass_reply_v2, h]

/-- An environment whose JSON parser yields an empty JSON array. -/
def envArrayJson : Env :=
  ⟨fun _ => [], none, none, .netFail [], fun _ => .netFail [], fun _ => some (.list []),
   fun _ => [], fun _ => [], [], [], [], [], 0, .netFail [], .netFail [], fun _ => []⟩

/-- Witness for C10: the parser returning the empty JSON array makes the
builder raise. -/
theorem c10_non_object_json_raises_witness :
    (create_grocery_pass envArrayJson [] []).1 = .error .typeError :=
  c10_non_object_json_raises envArrayJson [] [] [] rfl

/-- C3: on the `CREATE_PASS` route with a non-empty owner id, the Router
wraps each builder outcome. When the reply parses as a JSON object, the
payload — whose `user_id` is overwritten with the supplied owner id — is
returned as a `PASS_BUILDER` response if it carries no `error` key, and
otherwise as an `error` response prefixed `Sorry, failed to create grocery
pass: `. When the reply does not parse, the builder's `{error, raw_response}`
result is wrapped as the `error` response carrying that prefix followed by
the builder's parse-failure reason. -/
theorem c3_create_pass_wrapping (env : Env) (question user_id : Str) (session_id : Option Str)
    (h1 : user_id ≠ [])
    (h2 : (detect_intent env question).1 = S "CREATE_PASS") :
    (∀ fields : PyDict,
      env.jsonLoads (clean_llm_json_response (env.llm (groceryPromptV2 question))) =
        some (.dict fields) →
      ((answer_question env question user_id session_id).1 =
        match pyDictGet (pyDictSet fields (S "user_id") (.str user_id)) (S "error") with
        | some e => .ok (errorResp (S "Sorry, failed to create grocery pass: " ++ pyToStr e))
        | none => .ok (.dict [(S "type", .str (S "PASS_BUILDER")),
            (S "content", .dict (pyDictSet fields (S "user_id") (.str user_id)))]))
      ∧ pyDictGet (pyDictSet fields (S "user_id") (.str user_id)) (S "user_id") =
          some (.str user_id))
  ∧ (env.jsonLoads (clean_llm_json_response (env.llm (groceryPromptV2 question))) = none →
      (answer_question env question user_id session_id).1 =
        .ok (errorResp
          (S "Sorry, failed to create grocery pass: Failed to parse grocery pass from LLM response."))) := by
  have hne : user_id.isEmpty = false := by
    cases user_id with
    | nil => exact absurd rfl h1
    | cons a l => rfl
  have hnePC : ¬ ((S "CREATE_PASS") = (S "PRICE_COMPARISON")) := by decide
  constructor
  · intro fields h3
    refine ⟨?_, pyDictGet_pyDictSet_same fields _ _⟩
    rcases hx : pyDictGet (pyDictSet fields (S "user_id") (.str user_id)) (S "error") with _ | e <;>
      simp [answer_question, hne, h2, hnePC, create_grocery_pass,
        create_grocery_pass_reply_v2, h3, hx]
  · intro h3
    have hmsg : S "Sorry, failed to create grocery pass: "
        ++ S "Failed to parse grocery pass from LLM response."
        = S "Sorry, failed to create grocery pass: Failed to parse grocery pass from LLM response." := by
      decide
    simp [answer_question, hne, h2, hnePC, create_grocery_pass,
      create_grocery_pass_reply_v2, h3, pyDictGet, pyToStr, hmsg]

/-- An environment whose model always answers `CREATE_PASS` and whose JSON
parser yields the empty object. -/
def envPassOk : Env :=
  ⟨fun _ => S "CREATE_PASS", none, none, .netFail [], fun _ => .netFail [],
   fun _ => some (.dict []), fun _ => [], fun _ => [], [], [], [], [], 0,
   .netFail [], .netFail [], fun _ => []⟩

/-- Witness for C3: a concrete run of the `CREATE_PASS` route returning the
`PASS_BUILDER` payload stamped with the supplied owner id. -/
theorem c3_create_pass_wrapping_witness :
    ((answer_question envPassOk (S "x") (S "u") none).1 =
      .ok (.dict [(S "type", .str (S "PASS_BUILDER")),
        (S "content", .dict [(S "user_id", .str (S "u"))])]))
  ∧ pyDictGet (pyDictSet [] (S "user_id") (.str (S "u"))) (S "user_id") =
      some (.str (S "u")) :=
  (c3_create_pass_wrapping envPassOk (S "x") (S "u") none (by decide) (by decide)).1 [] rfl

/-- Replacing only the wallet-class oracles of an environment. -/
def withClassOracles (env : Env) (g p : HttpResp) : Env :=
  ⟨env.llm, env.api_key, env.search_engine_id, env.locationHttp, env.searchHttp, env.jsonLoads,
   env.jsonDumpsIndent, env.jsonDumpsStr, env.receipts, env.chat_history, env.issuer_id,
   env.service_account_email, env.now, g, p, env.jwtSign⟩

/-- C8 (amended): `create_wallet_pass_jwt` calls the class-ensure step but
discards its boolean result, so its returned value is the same whatever the
class lookup/create outcome: a failing class step never aborts the pass
build or the signing and is never reported to the caller. -/
theorem c8_class_failure_ignored (env : Env) (g p : HttpResp) (user_email : Str)
    (pass_data : PyValue) :
    (create_wallet_pass_jwt (withClassOracles env g p) user_email pass_data).1 =
      (create_wallet_pass_jwt env user_email pass_data).1 := by
  cases pass_data with
  | dict d =>
    cases hb : buildTextModules (pyDictGetD d (S "items") (.list [])) with
    | error f => simp [create_wallet_pass_jwt, withClassOracles, hb]
    | ok tms => simp [create_wallet_pass_jwt, withClassOracles, hb]
  | null => simp [create_wallet_pass_jwt, withClassOracles]
  | bool b => simp [create_wallet_pass_jwt, withClassOracles]
  | int n => simp [create_wallet_pass_jwt, withClassOracles]
  | str s => simp [create_wallet_pass_jwt, withClassOracles]
  | list xs => simp [create_wallet_pass_jwt, withClassOracles]

/-- An environment whose wallet-class lookup answers HTTP 500, so the
class-ensure step fails with an unexpected error. -/
def envClassFail : Env :=
  ⟨fun _ => [], none, none, .netFail [], fun _ => .netFail [], fun _ => none,
   fun _ => [], fun _ => [], [], [], S "issuer", S "svc", 0, .resp 500 (.ok .null),
   .netFail [], fun _ => S "tok"⟩

/-- Counterexample to C8 as stated: with the class lookup failing (HTTP 500,
so `_create_pass_class` returns `False`), `create_wallet_pass_jwt` does not
abort: it still signs the token (the `sign` event is in its trace) and
returns the save URL, reporting no failure. -/
theorem c8_class_failure_counterexample :
    (create_pass_class envClassFail).1 = false
  ∧ (create_wallet_pass_jwt envClassFail (S "e") (.dict [])).2 =
      [Event.httpGet (passClassUrl (S "issuer")), Event.sign]
  ∧ (create_wallet_pass_jwt envClassFail (S "e") (.dict [])).1 =
      .ok (.dict [(S "saveUrl", .str (S "https://pay.google.com/gp/v/save/tok"))]) :=
  ⟨rfl, rfl, rfl⟩

/-- Membership in the descending insertion is membership in the inserted
element or the original list. -/
theorem mem_insertChatDesc {x c : ChatDoc} {l : List ChatDoc} :
    x ∈ insertChatDesc c l ↔ x = c ∨ x ∈ l := by
  induction l with
  | nil => simp [insertChatDesc]
  | cons d ds ih =>
    by_cases h : c.timestamp ≤ d.timestamp
    · simp [insertChatDesc, h, ih]
      tauto
    · simp [insertChatDesc, h]

/-- Descending insertion preserves the descending-timestamp ordering. -/
theorem pairwise_insertChatDesc {c : ChatDoc} {l : List ChatDoc}
    (hl : l.Pairwise (fun a b => b.timestamp ≤ a.timestamp)) :
    (insertChatDesc c l).Pairwise (fun a b => b.timestamp ≤ a.timestamp) := by
  induction l with
  | nil => simp [insertChatDesc]
  | cons d ds ih =>
    rcases List.pairwise_cons.mp hl with ⟨hd, hds⟩
    by_cases h : c.timestamp ≤ d.timestamp
    · rw [insertChatDesc, if_pos h]
      refine List.pairwise_cons.mpr ⟨?_, ih hds⟩
      intro x hx
      rcases mem_insertChatDesc.mp hx with rfl | hx
      · exact h
      · exact hd x hx
    · rw [insertChatDesc, if_neg h]
      push_neg at h
      refine List.pairwise_cons.mpr ⟨?_, hl⟩
      intro x hx
      rcases List.mem_cons.mp hx with rfl | hx
      · exact le_of_lt h
      · exact le_trans (hd x hx) (le_of_lt h)

/-- The descending sort is ordered by descending timestamp. -/
theorem pairwise_sortChatsDesc (l : List ChatDoc) :
    (sortChatsDesc l).Pairwise (fun a b => b.timestamp ≤ a.timestamp) := by
  induction l with
  | nil => simp [sortChatsDesc]
  | cons c cs ih => exact pairwise_insertChatDesc ih

/-- The descending sort permutes membership only. -/
theorem mem_sortChatsDesc {x : ChatDoc} {l : List ChatDoc} :
    x ∈ sortChatsDesc l ↔ x ∈ l := by
  induction l with
  | nil => simp [sortChatsDesc]
  | cons c cs ih => simp [sortChatsDesc, mem_insertChatDesc, ih]

/-- C7: when at least one receipt document exists, the receipt Q&A handler
answers with the model called on a prompt grounded in every stored receipt —
with no filter on the requesting owner — while the chat-history part of the
context contains only the requesting user's entries, ordered by timestamp
descending and limited to the ten most recent. -/
theorem c7_receipt_grounding (env : Env) (question user_id : Str) (session_id : Option Str)
    (h : env.receipts ≠ []) :
    (handle_receipt_question env question user_id session_id).1 =
      textResp (env.llm (receiptPromptOf
        (env.jsonDumpsStr (receiptContextOf env.receipts (recentChats env.chat_history user_id)))
        question))
  ∧ (∀ c ∈ recentChats env.chat_history user_id, c.user_id = user_id)
  ∧ (recentChats env.chat_history user_id).length ≤ 10
  ∧ (recentChats env.chat_history user_id).Pairwise
      (fun a b => b.timestamp ≤ a.timestamp) := by
  have hne : env.receipts.isEmpty = false := by
    cases hr : env.receipts with
    | nil => exact absurd hr h
    | cons a l => rfl
  refine ⟨?_, ?_, ?_, ?_⟩
  · simp [handle_receipt_question, hne]
  · intro c hc
    unfold recentChats at hc
    have hc2 : c ∈ sortChatsDesc (env.chat_history.filter (fun d => d.user_id = user_id)) :=
      (List.take_sublist _ _).subset hc
    have hc3 : c ∈ env.chat_history.filter (fun d => d.user_id = user_id) :=
      mem_sortChatsDesc.mp hc2
    simpa using List.of_mem_filter hc3
  · exact List.length_take_le _ _
  · exact List.Pairwise.sublist (List.take_sublist _ _) (pairwise_sortChatsDesc _)

/-- An environment with one stored receipt. -/
def envOneReceipt : Env :=
  ⟨fun _ => [], none, none, .netFail [], fun _ => .netFail [], fun _ => none,
   fun _ => [], fun _ => [], [.null], [], [], [], 0, .netFail [], .netFail [], fun _ => []⟩

/-- Witness for C7 at an environment holding one receipt. -/
theorem c7_receipt_grounding_witness :
    (handle_receipt_question envOneReceipt (S "q") (S "u") none).1 =
      textResp (envOneReceipt.llm (receiptPromptOf
        (envOneReceipt.jsonDumpsStr (receiptContextOf envOneReceipt.receipts
          (recentChats envOneReceipt.chat_history (S "u"))))
        (S "q"))) :=
  (c7_receipt_grounding envOneReceipt (S "q") (S "u") none (List.cons_ne_nil _ _)).1

/-- The search query the price handler would send for a question. -/
def effectiveSearchQuery (env : Env) (question : Str) : Str :=
  searchQueryOf (productQueryOf env question) (get_user_location env).1

/-- Search tool result when the API credentials are missing. -/
theorem spt_missing_creds (env : Env) (q : Str)
    (hcond : (optFalsy env.api_key || optFalsy env.search_engine_id) = true) :
    (search_prices_tool env q).1 =
      [(S "error", .str (S "Price search unavailable - missing API credentials")),
       (S "available", .bool false)] := by
  simp [search_prices_tool, hcond]

/-- Search tool result on a network-level failure. -/
theorem spt_netfail (env : Env) (q msg : Str)
    (hcond : (optFalsy env.api_key || optFalsy env.search_engine_id) = false)
    (hs : env.searchHttp (searchQueryOf q (get_user_location env).1) = .netFail msg) :
    (search_prices_tool env q).1 =
      [(S "error", .str (S "Network or request error: " ++ msg)),
       (S "available", .bool false)] := by
  simp [search_prices_tool, hcond, hs]

/-- Search tool result on an HTTP error status. -/
theorem spt_http_error (env : Env) (q : Str) (status : Nat) (body : Except Str PyValue)
    (hcond : (optFalsy env.api_key || optFalsy env.search_engine_id) = false)
    (hs : env.searchHttp (searchQueryOf q (get_user_location env).1) = .resp status body)
    (hst : raisesForStatus status = true) :
    (search_prices_tool env q).1 =
      [(S "error", .str (S "API returned status " ++ natToStr status)),
       (S "available", .bool false)] := by
  simp [search_prices_tool, hcond, hs, hst]

/-- Search tool result when the response body is not JSON. -/
theorem spt_badjson (env : Env) (q msg : Str) (status : Nat)
    (hcond : (optFalsy env.api_key || optFalsy env.search_engine_id) = false)
    (hs : env.searchHttp (searchQueryOf q (get_user_location env).1) = .resp status (.error msg))
    (hst : raisesForStatus status = false) :
    (search_prices_tool env q).1 =
      [(S "error", .str (S "Network or request error: " ++ msg)),
       (S "available", .bool false)] := by
  simp [search_prices_tool, hcond, hs, hst]

/-- Search tool result on success. -/
theorem spt_ok (env : Env) (q : Str) (status : Nat) (j : PyValue)
    (hcond : (optFalsy env.api_key || optFalsy env.search_engine_id) = false)
    (hs : env.searchHttp (searchQueryOf q (get_user_location env).1) = .resp status (.ok j))
    (hst : raisesForStatus status = false) :
    (search_prices_tool env q).1 = [(S "results", j), (S "available", .bool true)] := by
  simp [search_prices_tool, hcond, hs, hst]

/-- The price handler's unavailability branch: an `{error, available: False}`
search result yields the `text` response carrying the reason. -/
theorem hpc_unavailable (env : Env) (question : Str)
    (hq : (productQueryOf env question).isEmpty = false)
    (errv : PyValue)
    (hsr : (search_prices_tool env (productQueryOf env question)).1 =
      [(S "error", errv), (S "available", .bool false)]) :
    (handle_price_comparison env question).1 =
      .ok (textResp (S "I couldn\x27t search for prices right now. Reason: " ++ pyToStr errv)) := by
  have hne : ¬ ((S "error") = (S "available")) := by decide
  simp [handle_price_comparison, hq, hsr, pyDictGetD, pyDictGet, hne, pyTruthy]

/-- The price handler's no-listings branch: an available result whose
dictionary lacks the `items` key yields the `text` no-listings response. -/
theorem hpc_no_items (env : Env) (question : Str) (d : PyDict)
    (hq : (productQueryOf env question).isEmpty = false)
    (hsr : (search_prices_tool env (productQueryOf env question)).1 =
      [(S "results", .dict d), (S "available", .bool true)])
    (hitems : pyDictGet d (S "items") = none) :
    (handle_price_comparison env question).1 =
      .ok (textResp (S "I couldn\x27t find any specific online listings for \x27"
        ++ productQueryOf env question ++ S "\x27. You could try a broader search term.")) := by
  have hne : ¬ ((S "results") = (S "available")) := by decide
  simp [handle_price_comparison, hq, hsr, pyDictGetD, pyDictGet, hne, pyTruthy,
    pyContains, hitems]

/-- C6: for each search-layer outcome — missing credentials, a network or
HTTP-status failure (including an unparseable body), or an available result
lacking the top-level `items` field — the price-comparison handler returns a
`text` response without raising; in the missing-credentials and no-listings
cases that response carries the specific message. It never returns an
`error`-typed response for these outcomes. -/
theorem c6_search_failures_yield_text (env : Env) (question : Str)
    (hq : productQueryOf env question ≠ [])
    (h : (optFalsy env.api_key || optFalsy env.search_engine_id) = true
      ∨ (∃ msg, env.searchHttp (effectiveSearchQuery env question) = .netFail msg)
      ∨ (∃ status body, env.searchHttp (effectiveSearchQuery env question) = .resp status body
          ∧ raisesForStatus status = true)
      ∨ (∃ status msg, env.searchHttp (effectiveSearchQuery env question) =
            .resp status (.error msg) ∧ raisesForStatus status = false)
      ∨ (∃ status d, env.searchHttp (effectiveSearchQuery env question) =
            .resp status (.ok (.dict d)) ∧ raisesForStatus status = false
          ∧ pyDictGet d (S "items") = none)) :
    (∃ c, (handle_price_comparison env question).1 = .ok (textResp c))
  ∧ ((optFalsy env.api_key || optFalsy env.search_engine_id) = true →
      (handle_price_comparison env question).1 = .ok (textResp
        (S "I couldn\x27t search for prices right now. Reason: Price search unavailable - missing API credentials")))
  ∧ ((optFalsy env.api_key || optFalsy env.search_engine_id) = false →
      (∃ status d, env.searchHttp (effectiveSearchQuery env question) =
          .resp status (.ok (.dict d)) ∧ raisesForStatus status = false
        ∧ pyDictGet d (S "items") = none) →
      (handle_price_comparison env question).1 = .ok (textResp
        (S "I couldn\x27t find any specific online listings for \x27"
          ++ productQueryOf env question ++ S "\x27. You could try a broader search term."))) := by
  have hq' : (productQueryOf env question).isEmpty = false := by
    cases hpq : productQueryOf env question with
    | nil => exact absurd hpq hq
    | cons a l => rfl
  refine ⟨?_, ?_, ?_⟩
  · by_cases hcond : (optFalsy env.api_key || optFalsy env.search_engine_id) = true
    · exact ⟨_, hpc_unavailable env question hq' _ (spt_missing_creds env _ hcond)⟩
    · have hcond' : (optFalsy env.api_key || optFalsy env.search_engine_id) = false := by
        revert hcond
        cases optFalsy env.api_key || optFalsy env.search_engine_id <;> simp
      rcases h with hcond2 | ⟨msg, hs⟩ | ⟨status, body, hs, hst⟩ | ⟨status, msg, hs, hst⟩ |
        ⟨status, d, hs, hst, hitems⟩
      · exact absurd hcond2 hcond
      · exact ⟨_, hpc_unavailable env question hq' _ (spt_netfail env _ msg hcond' hs)⟩
      · exact ⟨_, hpc_unavailable env question hq' _
          (spt_http_error env _ status body hcond' hs hst)⟩
      · exact ⟨_, hpc_unavailable env question hq' _
          (spt_badjson env _ msg status hcond' hs hst)⟩
      · exact ⟨_, hpc_no_items env question d hq'
          (spt_ok env _ status (.dict d) hcond' hs hst) hitems⟩
  · intro hcond
    have := hpc_unavailable env question hq' _ (spt_missing_creds env _ hcond)
    simpa [pyToStr, S] using this
  · rintro hcond' ⟨status, d, hs, hst, hitems⟩
    exact hpc_no_items env question d hq' (spt_ok env _ status (.dict d) hcond' hs hst) hitems

/-- An environment with no search credentials whose model extracts a
non-empty product name. -/
def envNoCreds : Env :=
  ⟨fun _ => S "eggs", none, none, .netFail [], fun _ => .netFail [], fun _ => none,
   fun _ => [], fun _ => [], [], [], [], [], 0, .netFail [], .netFail [], fun _ => []⟩

/-- Witness for C6 at a concrete environment missing its search credentials. -/
theorem c6_search_failures_yield_text_witness :
    ∃ c, (handle_price_comparison envNoCreds (S "p")).1 = .ok (textResp c) :=
  (c6_search_failures_yield_text envNoCreds (S "p") (by decide) (Or.inl (by decide))).1

/-- Dropping a whitespace prefix is idempotent. -/
theorem dropWhile_pyIsSpace_idem (l : Str) :
    List.dropWhile pyIsSpace (List.dropWhile pyIsSpace l) = List.dropWhile pyIsSpace l := by
  induction l with
  | nil => rfl
  | cons a l ih =>
    by_cases h : pyIsSpace a
    · simp [List.dropWhile_cons, h, ih]
    · simp [List.dropWhile_cons, h]

/-- A left strip keeps a list headed by a non-space character. -/
theorem pyLStrip_cons_not (a : Char) (l : Str) (h : pyIsSpace a = false) :
    pyLStrip (a :: l) = a :: l := by
  simp [pyLStrip, List.dropWhile_cons, h]

/-- A left strip consumes a leading space character. -/
theorem pyLStrip_cons_ws (a : Char) (l : Str) (h : pyIsSpace a = true) :
    pyLStrip (a :: l) = pyLStrip l := by
  simp [pyLStrip, List.dropWhile_cons, h]

/-- A right strip keeps a list ending in a non-space character. -/
theorem pyRStrip_append_not (l : Str) (a : Char) (h : pyIsSpace a = false) :
    pyRStrip (l ++ [a]) = l ++ [a] := by
  simp [pyRStrip, List.dropWhile_cons, h]

/-- A right strip consumes a trailing space character. -/
theorem pyRStrip_append_ws (l : Str) (a : Char) (h : pyIsSpace a = true) :
    pyRStrip (l ++ [a]) = pyRStrip l := by
  simp [pyRStrip, List.dropWhile_cons, h]

/-- Right stripping is idempotent. -/
theorem pyRStrip_idem (l : Str) : pyRStrip (pyRStrip l) = pyRStrip l := by
  simp [pyRStrip, List.reverse_reverse, dropWhile_pyIsSpace_idem]

/-- Right stripping a left-stripped list leaves nothing to strip on the left. -/
theorem pyLStrip_of_rstrip (l : Str) (hl : pyLStrip l = l) :
    pyLStrip (pyRStrip l) = pyRStrip l := by
  rcases hx : pyRStrip l with _ | ⟨c, xs⟩
  · rfl
  · have hpre : pyRStrip l <+: l := by
      unfold pyRStrip
      have h1 : List.dropWhile pyIsSpace l.reverse <:+ l.reverse := List.dropWhile_suffix _
      have h2 := List.reverse_prefix.mpr h1
      rwa [List.reverse_reverse] at h2
    obtain ⟨t, ht⟩ := hpre
    rw [hx] at ht
    have hl' : l = c :: (xs ++ t) := by
      rw [← ht]
      rfl
    have hc : pyIsSpace c = false := by
      by_contra hcc
      rw [Bool.not_eq_false] at hcc
      rw [hl', pyLStrip_cons_ws c _ hcc] at hl
      have hle : (pyLStrip (xs ++ t)).length ≤ (xs ++ t).length :=
        (List.dropWhile_sublist _).length_le
      have hlen := congrArg List.length hl
      rw [List.length_cons] at hlen
      omega
    exact pyLStrip_cons_not c xs hc

/-- Python `strip` is idempotent. -/
theorem pyStrip_idem (s : Str) : pyStrip (pyStrip s) = pyStrip s := by
  unfold pyStrip
  rw [pyLStrip_of_rstrip (pyLStrip s) (dropWhile_pyIsSpace_idem s), pyRStrip_idem]

/-- A list that the bare fence does not head is not headed by the JSON fence
either. -/
theorem fenceJson_isPrefixOf_false {t : Str} (h : fenceBare.isPrefixOf t = false) :
    fenceJson.isPrefixOf t = false := by
  by_contra hj
  rw [Bool.not_eq_false] at hj
  have hpre : fenceJson <+: t := List.isPrefixOf_iff_prefix.mp hj
  have hbare : fenceBare <+: fenceJson :=
    List.isPrefixOf_iff_prefix.mp (by decide)
  have htrans : fenceBare <+: t := hbare.trans hpre
  have := List.isPrefixOf_iff_prefix.mpr htrans
  simp [h] at this

/-- The cleaner behaves on an input whose text is not fenced: it only strips
whitespace. -/
theorem clean_of_unfenced (s : Str)
    (h1 : fenceBare.isPrefixOf (pyStrip s) = false)
    (h2 : fenceBare.isSuffixOf (pyStrip s) = false) :
    clean_llm_json_response s = pyStrip s := by
  have hj := fenceJson_isPrefixOf_false h1
  simp [clean_llm_json_response, hj, h1, h2]

/-- Common tail of the cleaner on a fence-opened input: after the opening
marker is dropped, the remainder `\n s \n` plus the closing fence is left
stripped, the closing fence removed, and the rest right stripped, leaving
exactly `strip s`. -/
theorem clean_tail_eq (s : Str) :
    (if fenceBare.isSuffixOf (pyLStrip (s ++ '\n' :: fenceBare)) = true then
       pyRStrip ((pyLStrip (s ++ '\n' :: fenceBare)).take
         ((pyLStrip (s ++ '\n' :: fenceBare)).length - 3))
     else pyLStrip (s ++ '\n' :: fenceBare)) = pyStrip s := by
  have hn : pyIsSpace '\n' = true := by decide
  have hbq : pyIsSpace bq = false := by decide
  have hsplit : pyLStrip (s ++ '\n' :: fenceBare) =
      if (pyLStrip s).isEmpty = true then pyLStrip ('\n' :: fenceBare)
      else pyLStrip s ++ '\n' :: fenceBare := by
    simp only [pyLStrip, List.dropWhile_append]
  by_cases hE : (pyLStrip s).isEmpty = true
  · have hLnil : pyLStrip s = [] := List.isEmpty_iff.mp hE
    have hfb : pyLStrip ('\n' :: fenceBare) = fenceBare := by
      rw [pyLStrip_cons_ws _ _ hn]
      exact pyLStrip_cons_not _ _ hbq
    rw [hsplit, if_pos hE, hfb]
    have hsufT : fenceBare.isSuffixOf fenceBare = true := by decide
    rw [if_pos hsufT]
    have hz : fenceBare.length - 3 = 0 := by decide
    rw [hz, List.take_zero]
    unfold pyStrip
    rw [hLnil]
  · rw [hsplit, if_neg hE]
    have hassoc : pyLStrip s ++ '\n' :: fenceBare = (pyLStrip s ++ ['\n']) ++ fenceBare := by
      simp
    have hsuf : fenceBare.isSuffixOf (pyLStrip s ++ '\n' :: fenceBare) = true := by
      rw [List.isSuffixOf_iff_suffix, hassoc]
      exact List.suffix_append _ _
    rw [if_pos hsuf]
    have hlen : (pyLStrip s ++ '\n' :: fenceBare).length - 3 = (pyLStrip s ++ ['\n']).length := by
      simp [fenceBare]
    rw [hlen, hassoc, List.take_left]
    rw [pyRStrip_append_ws _ _ hn]
    rfl

/-- The cleaner unwraps a bare-fenced input down to the stripped content. -/
theorem clean_wrapped_bare (s : Str) :
    clean_llm_json_response (fenceBare ++ '\n' :: s ++ '\n' :: fenceBare) = pyStrip s := by
  have hbq : pyIsSpace bq = false := by decide
  have hn : pyIsSpace '\n' = true := by decide
  have hw : fenceBare ++ '\n' :: s ++ '\n' :: fenceBare
      = bq :: (bq :: bq :: '\n' :: (s ++ '\n' :: fenceBare)) := by
    simp [fenceBare]
  rw [hw]
  have hstrip : pyStrip (bq :: (bq :: bq :: '\n' :: (s ++ '\n' :: fenceBare)))
      = bq :: (bq :: bq :: '\n' :: (s ++ '\n' :: fenceBare)) := by
    unfold pyStrip
    rw [pyLStrip_cons_not _ _ hbq]
    have hdec : bq :: (bq :: bq :: '\n' :: (s ++ '\n' :: fenceBare))
        = (bq :: bq :: bq :: '\n' :: (s ++ ['\n', bq, bq])) ++ [bq] := by
      simp [fenceBare]
    rw [hdec]
    exact pyRStrip_append_not _ _ hbq
  have hjn : ('j' == '\n') = false := by decide
  have hjp : fenceJson.isPrefixOf (bq :: (bq :: bq :: '\n' :: (s ++ '\n' :: fenceBare))) = false := by
    simp [fenceJson, List.isPrefixOf, hjn]
  have hbp : fenceBare.isPrefixOf (bq :: (bq :: bq :: '\n' :: (s ++ '\n' :: fenceBare))) = true := by
    simp [fenceBare, List.isPrefixOf]
  have hpl : pyLStrip ('\n' :: (s ++ '\n' :: fenceBare)) = pyLStrip (s ++ '\n' :: fenceBare) :=
    pyLStrip_cons_ws _ _ hn
  simp only [clean_llm_json_response, hstrip, hjp, hbp, Bool.false_eq_true, if_false, if_true,
    List.drop_succ_cons, List.drop_zero, hpl]
  exact clean_tail_eq s

/-- The cleaner unwraps a JSON-fenced input down to the stripped content. -/
theorem clean_wrapped_json (s : Str) :
    clean_llm_json_response (fenceJson ++ '\n' :: s ++ '\n' :: fenceBare) = pyStrip s := by
  have hbq : pyIsSpace bq = false := by decide
  have hn : pyIsSpace '\n' = true := by decide
  have hw : fenceJson ++ '\n' :: s ++ '\n' :: fenceBare
      = bq :: (bq :: bq :: 'j' :: 's' :: 'o' :: 'n' :: '\n' :: (s ++ '\n' :: fenceBare)) := by
    simp [fenceJson, fenceBare]
  rw [hw]
  have hstrip : pyStrip (bq :: (bq :: bq :: 'j' :: 's' :: 'o' :: 'n' :: '\n' :: (s ++ '\n' :: fenceBare)))
      = bq :: (bq :: bq :: 'j' :: 's' :: 'o' :: 'n' :: '\n' :: (s ++ '\n' :: fenceBare)) := by
    unfold pyStrip
    rw [pyLStrip_cons_not _ _ hbq]
    have hdec : bq :: (bq :: bq :: 'j' :: 's' :: 'o' :: 'n' :: '\n' :: (s ++ '\n' :: fenceBare))
        = (bq :: bq :: bq :: 'j' :: 's' :: 'o' :: 'n' :: '\n' :: (s ++ ['\n', bq, bq])) ++ [bq] := by
      simp [fenceBare]
    rw [hdec]
    exact pyRStrip_append_not _ _ hbq
  have hjp : fenceJson.isPrefixOf
      (bq :: (bq :: bq :: 'j' :: 's' :: 'o' :: 'n' :: '\n' :: (s ++ '\n' :: fenceBare))) = true := by
    simp [fenceJson, List.isPrefixOf]
  have hpl : pyLStrip ('\n' :: (s ++ '\n' :: fenceBare)) = pyLStrip (s ++ '\n' :: fenceBare) :=
    pyLStrip_cons_ws _ _ hn
  simp only [clean_llm_json_response, hstrip, hjp, if_true,
    List.drop_succ_cons, List.drop_zero, hpl]
  exact clean_tail_eq s

/-- C5: for a content string carrying no fence marker at its start or end
after whitespace stripping, the Response Cleaner returns `strip s` whether
given the string bare, wrapped in a bare fence, or wrapped in a JSON-tagged
fence, and cleaning an already-clean string a second time changes nothing. -/
theorem c5_cleaner_unwraps (s : Str)
    (h1 : fenceBare.isPrefixOf (pyStrip s) = false)
    (h2 : fenceBare.isSuffixOf (pyStrip s) = false) :
    clean_llm_json_response s = pyStrip s
  ∧ clean_llm_json_response (fenceBare ++ '\n' :: s ++ '\n' :: fenceBare) = pyStrip s
  ∧ clean_llm_json_response (fenceJson ++ '\n' :: s ++ '\n' :: fenceBare) = pyStrip s
  ∧ clean_llm_json_response (clean_llm_json_response s) = clean_llm_json_response s := by
  refine ⟨clean_of_unfenced s h1 h2, clean_wrapped_bare s, clean_wrapped_json s, ?_⟩
  rw [clean_of_unfenced s h1 h2]
  have h1' : fenceBare.isPrefixOf (pyStrip (pyStrip s)) = false := by
    rw [pyStrip_idem]
    exact h1
  have h2' : fenceBare.isSuffixOf (pyStrip (pyStrip s)) = false := by
    rw [pyStrip_idem]
    exact h2
  rw [clean_of_unfenced (pyStrip s) h1' h2', pyStrip_idem]

/-- Witness for C5 at the concrete content string `hello`. -/
theorem c5_cleaner_unwraps_witness :
    clean_llm_json_response (S "hello") = pyStrip (S "hello")
  ∧ clean_llm_json_response (fenceBare ++ '\n' :: S "hello" ++ '\n' :: fenceBare) =
      pyStrip (S "hello")
  ∧ clean_llm_json_response (fenceJson ++ '\n' :: S "hello" ++ '\n' :: fenceBare) =
      pyStrip (S "hello")
  ∧ clean_llm_json_response (clean_llm_json_response (S "hello")) =
      clean_llm_json_response (S "hello") :=
  c5_cleaner_unwraps (S "hello") (by decide) (by decide)
